import Mathlib

/-!
Shallow embedding of the volume-resolution and BitLocker-status core of
`internal/collector/logical_disk/logical_disk.go`.

Modelling conventions:
* Byte buffers are `List Nat` (each entry one byte); `binary.LittleEndian.Uint32`
  becomes `le32`.  The Go code always reads inside its fixed 16 KiB buffer, so
  out-of-range reads (which would panic in Go) are modelled with default 0 and
  never exercised by the theorems.
* Win32 calls are an oracle record (`OsApi`, `ShellApi`): each call site of the
  Go function consults the corresponding oracle field.
* Go `error` values are `Except String` / `Option String`; `fmt.Errorf` with
  `%s`/`%w` becomes string concatenation, exactly mirroring the format strings.
* `float64` fields that only ever hold exact small integers (`readonly`, the
  0/1 one-hot metric values) are modelled as `Nat`.
-/

namespace LogicalDisk

/-- `binary.LittleEndian.Uint32(buf[off:])`: little-endian 32-bit read. -/
def le32 (buf : List Nat) (off : Nat) : Nat :=
  buf.getD off 0 + 256 * buf.getD (off + 1) 0 +
    65536 * buf.getD (off + 2) 0 + 16777216 * buf.getD (off + 3) 0

/-- `const diskExtentSize = 24` — size of the DISK_EXTENT structure in bytes. -/
def diskExtentSize : Nat := 24

/-- The read in the loop body of `getVolumeInfo` (logical_disk.go:626):
`binary.LittleEndian.Uint32(volumeDiskExtents[8+i*diskExtentSize:])`. -/
def parsedDiskNumber (buf : List Nat) (i : Nat) : Nat :=
  le32 buf (8 + i * diskExtentSize)

/-- Lexicographic order on character lists, mirroring Go's `string` order
(byte order; identical to code-point order on the ASCII strings used here). -/
def charListLe : List Char → List Char → Bool
  | [], _ => true
  | _ :: _, [] => false
  | a :: as, b :: bs => if a < b then true else if b < a then false else charListLe as bs

/-- Go's `a <= b` on strings. -/
def strLe (a b : String) : Bool :=
  charListLe a.data b.data

/-- Insertion step for the string sort (Go `slices.Sort` on `[]string`).
Since `strLe` is a linear order, the sorted arrangement of a list is unique,
so insertion sort computes the same list as Go's pattern-defeating
quicksort. -/
def insertSorted (a : String) : List String → List String
  | [] => [a]
  | b :: l => if strLe a b then a :: b :: l else b :: insertSorted a l

/-- `slices.Sort` on `[]string` (see `insertSorted`). -/
def sortStrings : List String → List String
  | [] => []
  | a :: l => insertSorted a (sortStrings l)

/-- `slices.Compact` on `[]string`: collapse runs of adjacent equal elements. -/
def compactAdj : List String → List String
  | [] => []
  | [a] => [a]
  | a :: b :: l => if a = b then compactAdj (b :: l) else a :: compactAdj (b :: l)

/-- `strings.Join(elems, sep)`. -/
def joinSep (sep : String) : List String → String
  | [] => ""
  | [a] => a
  | a :: l => a ++ sep ++ joinSep sep l

/-- `strings.Contains(s, pat)` (Boolean). -/
def strContains (s pat : String) : Bool :=
  decide (pat.data <:+: s.data)

/-- `strings.Contains(s, pat)` as a proposition. -/
def strContainsP (s pat : String) : Prop :=
  pat.data <:+: s.data

/-- `strings.CutPrefix(s, p)` with the found-flag discarded, as used at
logical_disk.go:589: the suffix if `p` is a prefix of `s`, otherwise `s`. -/
def cutPref (p s : String) : String :=
  if List.isPrefixOf p.data s.data then String.mk (s.data.drop p.data.length) else s

/-- Drive-type constants from `golang.org/x/sys/windows`. -/
def DRIVE_UNKNOWN : Nat := 0

def DRIVE_NO_ROOT_DIR : Nat := 1

def DRIVE_REMOVABLE : Nat := 2

def DRIVE_FIXED : Nat := 3

def DRIVE_REMOTE : Nat := 4

def DRIVE_CDROM : Nat := 5

def DRIVE_RAMDISK : Nat := 6

/-- `windows.FILE_READ_ONLY_VOLUME = 0x00080000`. -/
def FILE_READ_ONLY_VOLUME : Nat := 524288

/-- `getDriveType` (logical_disk.go:556-575): drive-type code to label. -/
def getDriveType (driveType : Nat) : String :=
  if driveType = DRIVE_UNKNOWN then "unknown"
  else if driveType = DRIVE_NO_ROOT_DIR then "norootdir"
  else if driveType = DRIVE_REMOVABLE then "removable"
  else if driveType = DRIVE_FIXED then "fixed"
  else if driveType = DRIVE_REMOTE then "remote"
  else if driveType = DRIVE_CDROM then "cdrom"
  else if driveType = DRIVE_RAMDISK then "ramdisk"
  else "unknown"

/-- Uppercase hexadecimal digit. -/
def hexDigitChar (n : Nat) : Char :=
  if n < 10 then Char.ofNat (48 + n) else Char.ofNat (55 + n)

/-- Fuel-driven core of `hexUpper`; the fuel `n + 1` always suffices since the
argument shrinks by a factor of 16 every step. -/
def hexUpperAux : Nat → Nat → List Char
  | 0, _ => []
  | fuel + 1, n =>
    if n < 16 then [hexDigitChar n] else hexUpperAux fuel (n / 16) ++ [hexDigitChar (n % 16)]

/-- `fmt.Sprintf("%X", n)`: uppercase hexadecimal, no padding. -/
def hexUpper (n : Nat) : String :=
  String.mk (hexUpperAux (n + 1) n)

/-- The result record `volumeInfo` (logical_disk.go:103-110).  `readonly` is a
`float64` in Go but only ever holds the exact integer `fsFlags &
FILE_READ_ONLY_VOLUME`, so it is modelled as `Nat`. -/
structure volumeInfo where
  diskIDs : String
  filesystem : String
  serialNumber : String
  label : String
  volumeType : String
  readonly : Nat
deriving DecidableEq

/-- Go's zero value `volumeInfo{}`. -/
def volumeInfoZero : volumeInfo :=
  { diskIDs := "", filesystem := "", serialNumber := "", label := "",
    volumeType := "", readonly := 0 }

/-- The out-parameters of a successful `windows.GetVolumeInformation` call. -/
structure RawVolumeInformation where
  label : String
  serialNumber : Nat
  fsFlags : Nat
  fsName : String
deriving DecidableEq

/-- Oracle for the Win32 calls made by `getVolumeInfo`.  Each field answers one
call site; `deviceIoControl` returns the bytes the OS wrote into the fixed
16 KiB `volumeDiskExtents` buffer. -/
structure OsApi where
  createFile : String → Except String Unit
  deviceIoControl : Except String (List Nat)
  getDriveType : String → Nat
  getVolumeInformation : String → Except String RawVolumeInformation

/-- logical_disk.go:582-590: start from `rootDrive`; if it is a key of the
mount map, switch to the volume-GUID value with its `\\?\` prefix cut. -/
def volumePathOf (volumes : List (String × String)) (rootDrive : String) : String :=
  match List.lookup rootDrive volumes with
  | some volumeGUID => cutPref "\\\\?\\" volumeGUID
  | none => rootDrive

/-- logical_disk.go:592: the `\\.\`-prefixed path handed to `CreateFile`. -/
def devicePath (volumes : List (String × String)) (rootDrive : String) : String :=
  "\\\\.\\" ++ volumePathOf volumes rootDrive

/-- logical_disk.go:632-636: `volumeInformationRootDrive`, the canonical root
path used for both the drive-type query and the volume-information query:
`volumePath + \`, re-prefixed with `\\?\` when the path contains `Volume`. -/
def canonicalRoot (volumes : List (String × String)) (rootDrive : String) : String :=
  if strContains (volumePathOf volumes rootDrive) "Volume" then
    "\\\\?\\" ++ (volumePathOf volumes rootDrive ++ "\\")
  else
    volumePathOf volumes rootDrive ++ "\\"

/-- logical_disk.go:618-630: the deduplicated, sorted decimal disk-ID strings
parsed from the disk-extent buffer. -/
def diskIDsOf (buf : List Nat) : List String :=
  compactAdj (sortStrings
    ((List.range (le32 buf 0)).map (fun i => Nat.repr (parsedDiskNumber buf i))))

/-- Body of `getVolumeInfo` (logical_disk.go:581-667) with the canonical root
path a parameter (`getVolumeInfo` instantiates it with `canonicalRoot`; in Go
the same local `volumeInformationRootDrive` feeds both queries). -/
def getVolumeInfoUsingRoot (os : OsApi) (volumes : List (String × String))
    (rootDrive : String) (root : String) : Except String volumeInfo :=
  match os.createFile (devicePath volumes rootDrive) with
  | Except.error e => Except.error ("could not open volume for " ++ rootDrive ++ ": " ++ e)
  | Except.ok _ =>
    match os.deviceIoControl with
    | Except.error e =>
      Except.error ("could not identify physical drive for " ++ rootDrive ++ ": " ++ e)
    | Except.ok volumeDiskExtents =>
      if le32 volumeDiskExtents 0 < 1 then
        Except.error ("could not identify physical drive for " ++ rootDrive ++
          ": no disk IDs returned")
      else
        match os.getVolumeInformation root with
        | Except.error e =>
          if os.getDriveType root = DRIVE_CDROM ∨ os.getDriveType root = DRIVE_REMOVABLE then
            Except.ok volumeInfoZero
          else
            Except.error ("could not get volume information for " ++ root ++ ": " ++ e)
        | Except.ok raw =>
          Except.ok
            { diskIDs := joinSep ";" (diskIDsOf volumeDiskExtents)
              volumeType := getDriveType (os.getDriveType root)
              label := raw.label
              filesystem := raw.fsName
              serialNumber := hexUpper raw.serialNumber
              readonly := raw.fsFlags &&& FILE_READ_ONLY_VOLUME }

/-- `getVolumeInfo` (logical_disk.go:581-667). -/
def getVolumeInfo (os : OsApi) (volumes : List (String × String))
    (rootDrive : String) : Except String volumeInfo :=
  getVolumeInfoUsingRoot os volumes rootDrive (canonicalRoot volumes rootDrive)

/-- A well-formed disk-extent buffer encoding the disk numbers `ds`: the
leading 4-byte little-endian count is `ds.length` and the disk-number field of
the i-th record (at the offset the parser reads) decodes to `ds[i]`. -/
def encodes (buf : List Nat) (ds : List Nat) : Prop :=
  le32 buf 0 = ds.length ∧ ∀ i, (h : i < ds.length) → parsedDiskNumber buf i = ds.get ⟨i, h⟩

instance encodesDec (buf ds : List Nat) : Decidable (encodes buf ds) := by
  unfold encodes
  infer_instance

/-- Insertion step for the numeric sort used by the spec-side definition. -/
def insertSortedNat (a : Nat) : List Nat → List Nat
  | [] => [a]
  | b :: l => if a ≤ b then a :: b :: l else b :: insertSortedNat a l

/-- Ascending numeric sort (spec-side). -/
def sortNats : List Nat → List Nat
  | [] => []
  | a :: l => insertSortedNat a (sortNats l)

/-- Collapse runs of adjacent equal numbers (spec-side). -/
def compactAdjNat : List Nat → List Nat
  | [] => []
  | [a] => [a]
  | a :: b :: l => if a = b then compactAdjNat (b :: l) else a :: compactAdjNat (b :: l)

/-- The disk-ID string the C1 spec sentence asserts (spec-side definition,
for comparison with the code): disk numbers sorted ascending numerically,
deduplicated, rendered in decimal, joined with `;`. -/
def specNumericDiskIDs (ds : List Nat) : String :=
  joinSep ";" ((compactAdjNat (sortNats ds)).map Nat.repr)

/-- What the code computes from a buffer encoding `ds`: the decimal renderings
of the disk numbers sorted lexicographically as strings, deduplicated, joined
with `;`. -/
def lexDiskIDs (ds : List Nat) : String :=
  joinSep ";" (compactAdj (sortStrings (ds.map Nat.repr)))

/-- Result of one `windows.GetVolumePathNamesForVolumeName` call
(logical_disk.go:700): success with the decoded first mount point, or one of
the three error conditions the loop distinguishes.  `ERROR_NO_MORE_FILES` from
this API means the output buffer was undersized; the OS stores the required
length into `rootPathLen`, carried here by `bufferTooSmall`. -/
inductive VPNResult where
  | ok (mountPoint : String)
  | notFound
  | bufferTooSmall (rootPathLen : Nat)
  | otherError (e : String)
deriving DecidableEq

/-- Outcome of the mount-point-name resolution loop for one volume GUID inside
`getAllMountedVolumes` (logical_disk.go:694-724): a resolved mount point, a
skip (unmounted volume or empty mount point), a propagated error, or fuel
exhaustion (the Go loop is unbounded; fuel makes the model total). -/
inductive MountResolveOutcome where
  | resolved (mountPoint : String)
  | skipped
  | failed (e : String)
  | noFuel
deriving DecidableEq

/-- `windows.MAX_PATH`. -/
def MAX_PATH : Nat := 260

/-- The inner resolution loop of `getAllMountedVolumes`
(logical_disk.go:694-724).  `os callIdx bufElems passedLen` answers the
`callIdx`-th `GetVolumePathNamesForVolumeName` call, issued with a buffer of
`bufElems` uint16 elements and the API length argument `passedLen`.  The Go
code starts with `bufElems = MAX_PATH + 1` and `passedLen = (MAX_PATH + 1) *
2`; on `bufferTooSmall rootPathLen` it reallocates the buffer to
`(rootPathLen + 1) / 2` elements (the reported length in bytes, two bytes per
element) and retries — note `passedLen` (`rootPathBufLen`) is never updated.
Returns the outcome together with the number of calls issued. -/
def getVolumePathNamesLoop (os : Nat → Nat → Nat → VPNResult) :
    Nat → Nat → Nat → Nat → MountResolveOutcome × Nat
  | 0, _, _, _ => (MountResolveOutcome.noFuel, 0)
  | fuel + 1, callIdx, bufElems, passedLen =>
    match os callIdx bufElems passedLen with
    | VPNResult.ok s =>
      (if s = "" then MountResolveOutcome.skipped else MountResolveOutcome.resolved s, 1)
    | VPNResult.notFound => (MountResolveOutcome.skipped, 1)
    | VPNResult.otherError e => (MountResolveOutcome.failed e, 1)
    | VPNResult.bufferTooSmall rootPathLen =>
      let p := getVolumePathNamesLoop os fuel (callIdx + 1) ((rootPathLen + 1) / 2) passedLen
      (p.1, p.2 + 1)

/-- Oracle for the per-request shell calls of `workerBitlocker`
(logical_disk.go:835-850): `SHCreateItemFromParsingName`, `item.GetProperty`
(as an integer-valued variant), and `v.Clear()`s error. -/
structure ShellApi where
  createItemFromParsingName : String → Except String Unit
  getProperty : String → Except String Int
  clearVariant : String → Option String

/-- A response on `bitlockerResCh`, plus the observation whether the request
performed any shell-item query. -/
structure BitlockerResponse where
  status : Int
  err : Option String
  queriedShell : Bool
deriving DecidableEq

/-- Handling of one request by `workerBitlocker`s main loop
(logical_disk.go:826-855): paths without `:` are answered `(-1, nil)` without
touching the shell; otherwise the shell item is resolved, the BitLocker
property read, and the response carries `(int(v.Val), v.Clear())` on success
or `(-1, err)` on failure. -/
def handleBitlockerRequest (shell : ShellApi) (path : String) : BitlockerResponse :=
  if strContains path ":" = false then
    { status := -1, err := none, queriedShell := false }
  else
    match shell.createItemFromParsingName path with
    | Except.error e =>
      { status := -1, err := some ("SHCreateItemFromParsingName failed: " ++ e),
        queriedShell := true }
    | Except.ok _ =>
      match shell.getProperty path with
      | Except.error e =>
        { status := -1, err := some ("GetProperty failed: " ++ e), queriedShell := true }
      | Except.ok v =>
        { status := v, err := shell.clearVariant path, queriedShell := true }

/-- The nine status labels of the one-hot BitLocker metric emission
(logical_disk.go:536). -/
def bitlockerStatusLabels : List String :=
  ["disabled", "on", "off", "encrypting", "decrypting", "suspended", "locked",
    "unknown", "waiting_for_activation"]

/-- The `(label, value)` pairs emitted by the loop at logical_disk.go:536-549:
value 1 where the status equals the label index, 0 elsewhere (`float64` 0.0/1.0
in Go, modelled as `Nat`). -/
def bitlockerIndicatorValues (status : Int) : List (String × Nat) :=
  bitlockerStatusLabels.enum.map (fun p => (p.2, if status = Int.ofNat p.1 then 1 else 0))

/-! Concrete fixtures used by witness and counterexample theorems. -/

/-- Oracle builder for concrete `getVolumeInfo` runs: all calls succeed with
the given buffer, drive type and volume-information answer. -/
def mkOsApi (buf : List Nat) (dt : Nat) (vi : Except String RawVolumeInformation) : OsApi :=
  { createFile := fun _ => Except.ok ()
    deviceIoControl := Except.ok buf
    getDriveType := fun _ => dt
    getVolumeInformation := fun _ => vi }

/-- A successful volume-information answer with the read-only flag set. -/
def rawReadOnlyW : RawVolumeInformation :=
  { label := "Data", serialNumber := 255, fsFlags := 524288, fsName := "NTFS" }

/-- Buffer with extent count 1; value 7 at offset 8, value 9 at offset 12. -/
def bufOneW : List Nat := [1, 0, 0, 0, 0, 0, 0, 0, 7, 0, 0, 0, 9, 0, 0, 0]

/-- Buffer with extent count 0. -/
def bufZeroW : List Nat := [0, 0, 0, 0]

/-- Buffer encoding the disk numbers [10, 2]. -/
def bufTenTwoW : List Nat :=
  [2, 0, 0, 0, 0, 0, 0, 0, 10, 0, 0, 0] ++ List.replicate 20 0 ++ [2, 0, 0, 0]

/-- Buffer encoding the disk numbers [5, 3, 3, 9]. -/
def bufFiveThreeW : List Nat :=
  [4, 0, 0, 0, 0, 0, 0, 0, 5, 0, 0, 0] ++ List.replicate 20 0 ++ [3, 0, 0, 0] ++
    List.replicate 20 0 ++ [3, 0, 0, 0] ++ List.replicate 20 0 ++ [9, 0, 0, 0]

/-- Shell oracle whose calls all succeed (status variant 2, clean clear). -/
def shellOkW : ShellApi :=
  { createItemFromParsingName := fun _ => Except.ok ()
    getProperty := fun _ => Except.ok 2
    clearVariant := fun _ => none }

/-- Shell oracle whose `SHCreateItemFromParsingName` fails. -/
def shellCreateFailW : ShellApi :=
  { createItemFromParsingName := fun _ => Except.error "boom"
    getProperty := fun _ => Except.ok 2
    clearVariant := fun _ => none }

/-- Mount-point oracle that reports an undersized buffer on the first call and
succeeds on the second. -/
def vpnOnceW : Nat → Nat → Nat → VPNResult := fun callIdx _ _ =>
  if callIdx = 0 then VPNResult.bufferTooSmall 600 else VPNResult.ok "D:"

/-! Theorems settling the claims. -/

/-- Claim C2, counterexample: the parser does not read the i-th disk number at
buffer offset 4 + 24*i + 8.  In `bufOneW` the little-endian 32-bit value at
offset 8 is 7 and the one at offset 4 + 24*0 + 8 = 12 is 9; the parser reads
7, not 9. -/
theorem parsedDiskNumber_offset12_counterexample :
    parsedDiskNumber bufOneW 0 = 7 ∧ le32 bufOneW (4 + 24 * 0 + 8) = 9 ∧ (7 : Nat) ≠ 9 := by
  decide

/-- Claim C2, amended: the parser reads the physical disk number of the i-th
(0-based) record as the little-endian 32-bit value at buffer offset 8 + 24*i —
the 4-byte little-endian extent count is followed by 4 bytes of alignment
padding, and the disk number occupies the first 4 bytes of each fixed-size
24-byte record — not at offset 4 + 24*i + 8. -/
theorem parsedDiskNumber_layout (buf : List Nat) (i : Nat) :
    parsedDiskNumber buf i =
      buf.getD (8 + 24 * i) 0 + 256 * buf.getD (8 + 24 * i + 1) 0 +
        65536 * buf.getD (8 + 24 * i + 2) 0 + 16777216 * buf.getD (8 + 24 * i + 3) 0 := by
  simp only [parsedDiskNumber, le32, diskExtentSize, Nat.mul_comm i 24]

/-- Claim C5, counterexample: with an OS that reports an undersized buffer on
each of the first two calls, the loop issues three calls — two resize-and-retry
rounds — before succeeding, so the call is not retried exactly once. -/
theorem getVolumePathNamesLoop_two_retries_counterexample :
    getVolumePathNamesLoop
        (fun callIdx _ _ =>
          if callIdx < 2 then VPNResult.bufferTooSmall 600 else VPNResult.ok "C:")
        10 0 (MAX_PATH + 1) ((MAX_PATH + 1) * 2) =
      (MountResolveOutcome.resolved "C:", 3) ∧ (3 : Nat) ≠ 2 := by
  decide

/-- Claim C5, amended: whenever a `GetVolumePathNamesForVolumeName` call
reports an undersized buffer, the loop retries with the buffer reallocated to
`(rootPathLen + 1) / 2` uint16 elements — the length the OS reported, counted
in bytes at two bytes per element — while the API length argument is left
unchanged; the retry is repeated as long as the OS keeps reporting undersized
(not exactly once) before succeeding, skipping, or propagating an error. -/
theorem getVolumePathNamesLoop_retry (os : Nat → Nat → Nat → VPNResult)
    (fuel callIdx bufElems passedLen rootPathLen : Nat)
    (h : os callIdx bufElems passedLen = VPNResult.bufferTooSmall rootPathLen) :
    getVolumePathNamesLoop os (fuel + 1) callIdx bufElems passedLen =
      ((getVolumePathNamesLoop os fuel (callIdx + 1) ((rootPathLen + 1) / 2) passedLen).1,
        (getVolumePathNamesLoop os fuel (callIdx + 1) ((rootPathLen + 1) / 2) passedLen).2 + 1) := by
  simp [getVolumePathNamesLoop, h]

/-- Witness for `getVolumePathNamesLoop_retry` at the oracle `vpnOnceW`. -/
theorem getVolumePathNamesLoop_retry_witness :
    getVolumePathNamesLoop vpnOnceW (1 + 1) 0 (MAX_PATH + 1) ((MAX_PATH + 1) * 2) =
      ((getVolumePathNamesLoop vpnOnceW 1 (0 + 1) ((600 + 1) / 2) ((MAX_PATH + 1) * 2)).1,
        (getVolumePathNamesLoop vpnOnceW 1 (0 + 1) ((600 + 1) / 2) ((MAX_PATH + 1) * 2)).2 + 1) :=
  getVolumePathNamesLoop_retry vpnOnceW 1 0 (MAX_PATH + 1) ((MAX_PATH + 1) * 2) 600 (by decide)

/-- Claim C6, counterexample: with the mount map exactly as the claim gives it
— value `\\?\Volume{abc}\`, carrying its trailing separator — the canonical
root path the code builds is `\\?\Volume{abc}\\`, with a doubled trailing
backslash, not `\\?\Volume{abc}\`.  (The code's own map never contains the
trailing separator: `getAllMountedVolumes` strips it before storing.) -/
theorem canonicalRoot_trailing_counterexample :
    canonicalRoot [("C:", "\\\\?\\Volume\x7babc\x7d\\")] "C:" = "\\\\?\\Volume\x7babc\x7d\\\\" ∧
    ("\\\\?\\Volume\x7babc\x7d\\\\" : String) ≠ "\\\\?\\Volume\x7babc\x7d\\" := by
  decide

/-- Claim C6, amended: given the mount map with value `\\?\Volume{abc}` —
stored without its trailing separator, as `getAllMountedVolumes` stores it —
and the request `C:`, the canonical root path is `\\?\Volume{abc}\`, and
`getVolumeInfo` consults the drive-type and volume-information oracles exactly
at that root (it equals `getVolumeInfoUsingRoot` applied to that root). -/
theorem canonicalRoot_guid_used :
    canonicalRoot [("C:", "\\\\?\\Volume\x7babc\x7d")] "C:" = "\\\\?\\Volume\x7babc\x7d\\" ∧
    ∀ os : OsApi,
      getVolumeInfo os [("C:", "\\\\?\\Volume\x7babc\x7d")] "C:" =
        getVolumeInfoUsingRoot os [("C:", "\\\\?\\Volume\x7babc\x7d")] "C:"
          "\\\\?\\Volume\x7babc\x7d\\" := by
  refine ⟨by decide, fun os => ?_⟩
  unfold getVolumeInfo
  congr 1

/-- Claim C7: a request path without `:` is answered with status -1 and nil
error, and no shell-item or property query is performed. -/
theorem handleBitlockerRequest_noColon (shell : ShellApi) (path : String)
    (h : strContains path ":" = false) :
    handleBitlockerRequest shell path =
      { status := -1, err := none, queriedShell := false } := by
  simp [handleBitlockerRequest, h]

/-- Witness for `handleBitlockerRequest_noColon` at path `HarddiskVolume1`. -/
theorem handleBitlockerRequest_noColon_witness :
    handleBitlockerRequest shellOkW "HarddiskVolume1" =
      { status := -1, err := none, queriedShell := false } :=
  handleBitlockerRequest_noColon shellOkW "HarddiskVolume1" (by decide)

/-- Claim C8: for each status code s in 0..8, the one-hot indicator pairs over
the nine labels contain exactly one value 1 — at index s, paired with the s-th
label — and eight values 0. -/
theorem bitlockerIndicators_one_hot (s : Int) (h0 : 0 ≤ s) (h9 : s < 9) :
    (bitlockerIndicatorValues s).countP (fun p => p.2 == 1) = 1 ∧
    (bitlockerIndicatorValues s).countP (fun p => p.2 == 0) = 8 ∧
    (bitlockerIndicatorValues s).getD s.toNat ("", 0) =
      (bitlockerStatusLabels.getD s.toNat "", 1) := by
  have hcases : s = 0 ∨ s = 1 ∨ s = 2 ∨ s = 3 ∨ s = 4 ∨ s = 5 ∨ s = 6 ∨ s = 7 ∨ s = 8 := by
    omega
  rcases hcases with h | h | h | h | h | h | h | h | h <;> subst h <;> decide

/-- Witness for `bitlockerIndicators_one_hot` at status 3 (`encrypting`). -/
theorem bitlockerIndicators_one_hot_witness :
    (bitlockerIndicatorValues 3).countP (fun p => p.2 == 1) = 1 ∧
    (bitlockerIndicatorValues 3).countP (fun p => p.2 == 0) = 8 ∧
    (bitlockerIndicatorValues 3).getD (Int.toNat 3) ("", 0) =
      (bitlockerStatusLabels.getD (Int.toNat 3) "", 1) :=
  bitlockerIndicators_one_hot 3 (by decide) (by decide)

/-- An infix of `l` is an infix of `x ++ l`. -/
theorem isInfix_append_left (p l : List Char) (h : p <:+: l) (x : List Char) :
    p <:+: x ++ l := by
  obtain ⟨s, t, rfl⟩ := h
  exact ⟨x ++ s, t, by simp⟩

/-- Claim C3: with a zero leading extent count, `getVolumeInfo` returns an
error whose message contains `no disk IDs returned` — never a successful
result with an empty disk-ID list. -/
theorem getVolumeInfo_zeroExtents_error (os : OsApi) (volumes : List (String × String))
    (rootDrive : String) (buf : List Nat)
    (h1 : os.createFile (devicePath volumes rootDrive) = Except.ok ())
    (h2 : os.deviceIoControl = Except.ok buf)
    (h3 : le32 buf 0 = 0) :
    getVolumeInfo os volumes rootDrive =
      Except.error ("could not identify physical drive for " ++ rootDrive ++
        ": no disk IDs returned") ∧
    strContainsP ("could not identify physical drive for " ++ rootDrive ++
      ": no disk IDs returned") "no disk IDs returned" := by
  constructor
  · simp only [getVolumeInfo, getVolumeInfoUsingRoot, h1, h2]
    simp [h3]
  · unfold strContainsP
    simp only [String.data_append]
    exact isInfix_append_left _ _ (by decide) _

/-- Witness for `getVolumeInfo_zeroExtents_error` at the zero-count buffer. -/
theorem getVolumeInfo_zeroExtents_error_witness :
    getVolumeInfo (mkOsApi bufZeroW 3 (Except.ok rawReadOnlyW)) [] "C:" =
      Except.error ("could not identify physical drive for " ++ "C:" ++
        ": no disk IDs returned") ∧
    strContainsP ("could not identify physical drive for " ++ "C:" ++
      ": no disk IDs returned") "no disk IDs returned" :=
  getVolumeInfo_zeroExtents_error (mkOsApi bufZeroW 3 (Except.ok rawReadOnlyW)) [] "C:"
    bufZeroW rfl rfl (by decide)

/-- Claim C4: when the volume-information query fails, `getVolumeInfo` returns
the empty `volumeInfo` with no error when the drive type is CD-ROM or
removable, and otherwise an error whose message names the canonical root
path. -/
theorem getVolumeInfo_volInfoFailure (os : OsApi) (volumes : List (String × String))
    (rootDrive : String) (buf : List Nat) (e : String)
    (h1 : os.createFile (devicePath volumes rootDrive) = Except.ok ())
    (h2 : os.deviceIoControl = Except.ok buf)
    (h3 : 1 ≤ le32 buf 0)
    (h4 : os.getVolumeInformation (canonicalRoot volumes rootDrive) = Except.error e) :
    ((os.getDriveType (canonicalRoot volumes rootDrive) = DRIVE_CDROM ∨
        os.getDriveType (canonicalRoot volumes rootDrive) = DRIVE_REMOVABLE) →
      getVolumeInfo os volumes rootDrive = Except.ok volumeInfoZero) ∧
    (¬(os.getDriveType (canonicalRoot volumes rootDrive) = DRIVE_CDROM ∨
        os.getDriveType (canonicalRoot volumes rootDrive) = DRIVE_REMOVABLE) →
      getVolumeInfo os volumes rootDrive =
        Except.error ("could not get volume information for " ++
          canonicalRoot volumes rootDrive ++ ": " ++ e) ∧
      strContainsP ("could not get volume information for " ++
        canonicalRoot volumes rootDrive ++ ": " ++ e) (canonicalRoot volumes rootDrive)) := by
  have hlt : ¬(le32 buf 0 < 1) := by omega
  constructor
  · intro hdt
    simp only [getVolumeInfo, getVolumeInfoUsingRoot, h1, h2, h4]
    rw [if_neg hlt, if_pos hdt]
  · intro hdt
    refine ⟨?_, ?_⟩
    · simp only [getVolumeInfo, getVolumeInfoUsingRoot, h1, h2, h4]
      rw [if_neg hlt, if_neg hdt]
    · refine ⟨("could not get volume information for ").data, (": ").data ++ e.data, ?_⟩
      simp [List.append_assoc]

/-- Witness for `getVolumeInfo_volInfoFailure`: CD-ROM drive type and a failed
volume-information query give an empty, non-error result. -/
theorem getVolumeInfo_volInfoFailure_witness :
    getVolumeInfo (mkOsApi bufOneW DRIVE_CDROM (Except.error "boom")) [] "C:" =
      Except.ok volumeInfoZero :=
  (getVolumeInfo_volInfoFailure (mkOsApi bufOneW DRIVE_CDROM (Except.error "boom")) [] "C:"
    bufOneW "boom" rfl rfl (by decide) rfl).1 (Or.inl rfl)

/-- Claim C9: on a successful resolve the `readonly` field is the raw masked
flag value `fsFlags &&& FILE_READ_ONLY_VOLUME` — 0 when the read-only bit
(bit 19) is clear, and the bit's value 524288 (not 1) when it is set. -/
theorem getVolumeInfo_readonly_masked (os : OsApi) (volumes : List (String × String))
    (rootDrive : String) (buf : List Nat) (raw : RawVolumeInformation)
    (h1 : os.createFile (devicePath volumes rootDrive) = Except.ok ())
    (h2 : os.deviceIoControl = Except.ok buf)
    (h3 : 1 ≤ le32 buf 0)
    (h4 : os.getVolumeInformation (canonicalRoot volumes rootDrive) = Except.ok raw) :
    Except.map (fun vi => vi.readonly) (getVolumeInfo os volumes rootDrive) =
      Except.ok (raw.fsFlags &&& FILE_READ_ONLY_VOLUME) ∧
    raw.fsFlags &&& FILE_READ_ONLY_VOLUME =
      (if raw.fsFlags.testBit 19 then 524288 else 0) := by
  constructor
  · simp only [getVolumeInfo, getVolumeInfoUsingRoot, h1, h2, h4]
    rw [if_neg (by omega)]
    rfl
  · have h := Nat.and_two_pow raw.fsFlags 19
    have h2p : (2 : Nat) ^ 19 = 524288 := by norm_num
    rw [h2p] at h
    unfold FILE_READ_ONLY_VOLUME
    rw [h]
    cases hb : raw.fsFlags.testBit 19 <;> simp

/-- Witness for `getVolumeInfo_readonly_masked` with the read-only bit set. -/
theorem getVolumeInfo_readonly_masked_witness :
    Except.map (fun vi => vi.readonly)
        (getVolumeInfo (mkOsApi bufOneW 3 (Except.ok rawReadOnlyW)) [] "C:") =
      Except.ok (rawReadOnlyW.fsFlags &&& FILE_READ_ONLY_VOLUME) ∧
    rawReadOnlyW.fsFlags &&& FILE_READ_ONLY_VOLUME =
      (if rawReadOnlyW.fsFlags.testBit 19 then 524288 else 0) :=
  getVolumeInfo_readonly_masked (mkOsApi bufOneW 3 (Except.ok rawReadOnlyW)) [] "C:"
    bufOneW rawReadOnlyW rfl rfl (by decide) rfl

/-- Claim C10: on a path with a drive reference, a failing shell-item creation
or property read always yields status -1 with a non-nil error, and a
non-negative status is only ever paired with the (possibly nil) error from
clearing the variant. -/
theorem handleBitlockerRequest_error_pairing (shell : ShellApi) (path : String) (e : String)
    (hc : strContains path ":" = true) :
    (shell.createItemFromParsingName path = Except.error e →
      handleBitlockerRequest shell path =
        { status := -1, err := some ("SHCreateItemFromParsingName failed: " ++ e),
          queriedShell := true }) ∧
    (shell.createItemFromParsingName path = Except.ok () →
      shell.getProperty path = Except.error e →
      handleBitlockerRequest shell path =
        { status := -1, err := some ("GetProperty failed: " ++ e), queriedShell := true }) ∧
    (0 ≤ (handleBitlockerRequest shell path).status →
      (handleBitlockerRequest shell path).err = shell.clearVariant path) := by
  refine ⟨fun h => ?_, fun h h' => ?_, fun hpos => ?_⟩
  · simp [handleBitlockerRequest, hc, h]
  · simp [handleBitlockerRequest, hc, h, h']
  · cases h : shell.createItemFromParsingName path with
    | error e' =>
      simp [handleBitlockerRequest, hc, h] at hpos
    | ok u =>
      cases u
      cases h' : shell.getProperty path with
      | error e' =>
        simp [handleBitlockerRequest, hc, h, h'] at hpos
      | ok v =>
        simp [handleBitlockerRequest, hc, h, h']

/-- Witness for `handleBitlockerRequest_error_pairing`: a failed shell-item
creation yields status -1 and the wrapped error. -/
theorem handleBitlockerRequest_error_pairing_witness :
    handleBitlockerRequest shellCreateFailW "C:" =
      { status := -1, err := some ("SHCreateItemFromParsingName failed: " ++ "boom"),
        queriedShell := true } :=
  (handleBitlockerRequest_error_pairing shellCreateFailW "C:" "boom" (by decide)).1 rfl

/-- Claim C1, counterexample: the well-formed buffer `bufTenTwoW` encodes the
disk numbers [10, 2]; `getVolumeInfo` produces the diskIDs string `10;2` (the
decimal strings sorted lexicographically, `"10" < "2"`), not the
ascending-numeric `2;10` the claim asserts. -/
theorem getVolumeInfo_diskIDs_numeric_counterexample :
    encodes bufTenTwoW [10, 2] ∧
    Except.map (fun vi => vi.diskIDs)
        (getVolumeInfo (mkOsApi bufTenTwoW 3 (Except.ok rawReadOnlyW)) [] "C:") =
      Except.ok "10;2" ∧
    specNumericDiskIDs [10, 2] = "2;10" ∧
    ("10;2" : String) ≠ "2;10" :=
  ⟨by decide, rfl, rfl, by decide⟩

/-- Claim C1, amended: for every well-formed disk-extent buffer with a
positive extent count encoding disk numbers in arbitrary order with
duplicates, the diskIDs string produced by `getVolumeInfo` equals the
`;`-joined, deduplicated list of the decimal renderings of those disk numbers
sorted lexicographically as strings (not numerically); e.g. disk numbers
[5, 3, 3, 9] still yield `3;5;9`, but [10, 2] yields `10;2`. -/
theorem getVolumeInfo_diskIDs_lex (os : OsApi) (volumes : List (String × String))
    (rootDrive : String) (buf : List Nat) (ds : List Nat) (raw : RawVolumeInformation)
    (henc : encodes buf ds) (hpos : 0 < ds.length)
    (h1 : os.createFile (devicePath volumes rootDrive) = Except.ok ())
    (h2 : os.deviceIoControl = Except.ok buf)
    (h4 : os.getVolumeInformation (canonicalRoot volumes rootDrive) = Except.ok raw) :
    Except.map (fun vi => vi.diskIDs) (getVolumeInfo os volumes rootDrive) =
      Except.ok (lexDiskIDs ds) := by
  obtain ⟨hlen, hget⟩ := henc
  have hmap : (List.range (le32 buf 0)).map (fun i => Nat.repr (parsedDiskNumber buf i)) =
      ds.map Nat.repr := by
    rw [hlen]
    apply List.ext_getElem
    · simp
    · intro i hi1 hi2
      simp only [List.getElem_map, List.getElem_range]
      rw [hget i (by simpa using hi1)]
      simp [List.get_eq_getElem]
  have hlt : ¬(le32 buf 0 < 1) := by omega
  simp only [getVolumeInfo, getVolumeInfoUsingRoot, h1, h2, h4]
  rw [if_neg hlt]
  simp only [Except.map, diskIDsOf, lexDiskIDs, hmap]

/-- Witness for `getVolumeInfo_diskIDs_lex` at the buffer encoding
[5, 3, 3, 9], together with the evaluation `lexDiskIDs [5,3,3,9] = 3;5;9`
matching the spec's example. -/
theorem getVolumeInfo_diskIDs_lex_witness :
    (Except.map (fun vi => vi.diskIDs)
        (getVolumeInfo (mkOsApi bufFiveThreeW 3 (Except.ok rawReadOnlyW)) [] "C:") =
      Except.ok (lexDiskIDs [5, 3, 3, 9])) ∧
    lexDiskIDs [5, 3, 3, 9] = "3;5;9" :=
  ⟨getVolumeInfo_diskIDs_lex (mkOsApi bufFiveThreeW 3 (Except.ok rawReadOnlyW)) [] "C:"
      bufFiveThreeW [5, 3, 3, 9] rawReadOnlyW (by decide) (by decide) rfl rfl rfl,
    by decide⟩

end LogicalDisk
